import Mathlib

set_option maxRecDepth 8000

/-!
Verification of the blender MCP repository: the pydantic validation layer
(src/src/models.py), the tool dispatch layer (src/src/tools.py), the bpy
operation handlers (src/src/operations.py), and the stdout JSON
demultiplexer (src/blender_mcp_filter.py).

Modelling conventions:
* Python `float` values are embedded as rationals (`ℚ`); every bound that
  the source compares against (0.001, 1000.0, 10000.0, 6.28318, 0.0, 1.0)
  is carried over exactly.
* Python strings are Lean `String`s; byte buffers of the filter are
  `List Char` (the source decodes with `errors='ignore'`, and on the ASCII
  streams the claims are about, decoding is the identity).
* Exceptions are explicit: a handler body is an `Except (PyExn × Scene)`
  computation, and each `try/except` of the source is a `pyCatch` or
  `tryCatchE` application.
-/

/-- Python `str.strip()` whitespace predicate, restricted to the ASCII
whitespace characters (space, tab, newline, carriage return, vertical tab,
form feed). -/
def isPySpace (c : Char) : Bool :=
  c = ' ' || c = '\t' || c = '\n' || c = '\r' || c = '\x0b' || c = '\x0c'

/-- Python `str.strip()` on a character list: drop whitespace from both ends. -/
def pyStrip (l : List Char) : List Char :=
  ((l.dropWhile isPySpace).reverse.dropWhile isPySpace).reverse

/-- Python `str.strip()` on a string. -/
def pyStripStr (s : String) : String :=
  String.mk (pyStrip s.data)

/-- Python `str.upper()` (ASCII). -/
def pyUpper (s : String) : String :=
  String.mk (s.data.map Char.toUpper)

/-- Python `str.lower()` (ASCII). -/
def pyLower (s : String) : String :=
  String.mk (s.data.map Char.toLower)

/-- Python `s.endswith(suffix)`. -/
def pyEndsWith (s suffix : String) : Bool :=
  suffix.data.isSuffixOf s.data

/-- A 3-tuple of floats, as used for location / rotation / scale fields. -/
abbrev V3 := ℚ × ℚ × ℚ

/-- The characters rejected in entity and material names
(`invalid_chars` in src/src/models.py). -/
def invalidNameChars : List Char :=
  ['/', '\\', ':', '*', '?', '"', '<', '>', '|']

/-- `any(char in v for char in invalid_chars)` from the `validate_name`
validators of src/src/models.py. -/
def containsInvalidChar (s : String) : Bool :=
  invalidNameChars.any (fun c => s.data.contains c)

/-- The `ValueError` message of the `validate_name` validators. -/
def invalidNameMsg : String :=
  "Name cannot contain: /, \\, :, *, ?, \", <, >, |"

/-- The pydantic `min_length`/`max_length` check on a string field
(messages stand in for the library-generated ones; every name and
material field of src/src/models.py declares `min_length=1, max_length=63`). -/
def checkLen1to63 (s : String) : Except String Unit :=
  if s.length < 1 then .error "String should have at least 1 character"
  else if 63 < s.length then .error "String should have at most 63 characters"
  else .ok ()

/-- A name field that carries the `validate_name` field validator
(creation tools and `DuplicateObjectInput.new_name`): pydantic first checks
the declared length bounds, then the validator rejects forbidden characters
and returns `v.strip()`. -/
def validateEntityName (s : String) : Except String String :=
  match checkLen1to63 s with
  | .error e => .error e
  | .ok _ =>
    if containsInvalidChar s then .error invalidNameMsg
    else .ok (pyStripStr s)

/-- A name field with only the length bounds and no field validator
(move/delete/select/rotate/scale/get-info/material/assign/set-active-camera
and `DuplicateObjectInput.name` in src/src/models.py): the accepted value
is the raw string, untrimmed. -/
def validateLenOnlyName (s : String) : Except String String :=
  match checkLen1to63 s with
  | .error e => .error e
  | .ok _ => .ok s

/-- The `validate_location` / `validate_vector3` check: every component of
the 3-tuple within `±limit`. -/
def v3Within (limit : ℚ) (v : V3) : Bool :=
  (-limit ≤ v.1 && v.1 ≤ limit) && (-limit ≤ v.2.1 && v.2.1 ≤ limit) &&
    (-limit ≤ v.2.2 && v.2.2 ≤ limit)

/-- `validate_location` from src/src/models.py (`limit = 10000.0`). -/
def checkLocation (v : V3) : Except String V3 :=
  if v3Within 10000 v then .ok v
  else .error "Location coordinates must be within ±10000.0"

/-- `validate_vector3` from `CreateSphereInput` (`limit = 10000.0`),
applied to both `location` and `rotation`. -/
def checkVector3 (v : V3) : Except String V3 :=
  if v3Within 10000 v then .ok v
  else .error "Vector coordinates must be within ±10000.0"

instance {ε α : Type} [DecidableEq ε] [DecidableEq α] : DecidableEq (Except ε α) := fun x y => by
  cases x <;> cases y
  case ok.ok a b =>
    exact if h : a = b then .isTrue (by rw [h]) else .isFalse (by simp [h])
  case error.error a b =>
    exact if h : a = b then .isTrue (by rw [h]) else .isFalse (by simp [h])
  case ok.error a b => exact .isFalse (by simp)
  case error.ok a b => exact .isFalse (by simp)

/-- `Except.isOk` restated locally so theorems can use a single accept
predicate. -/
def exOk {ε α : Type} : Except ε α → Bool
  | .ok _ => true
  | .error _ => false

@[simp] theorem exOk_ok {ε α : Type} (a : α) : exOk (Except.ok a : Except ε α) = true := rfl

@[simp] theorem exOk_error {ε α : Type} (e : ε) : exOk (Except.error e : Except ε α) = false := rfl

/-- `CreateCubeInput` (src/src/models.py lines 7-50): field order
`name`, `size`, `location`. -/
structure CreateCubeInput where
  name : String
  size : ℚ
  location : V3
deriving Repr, DecidableEq

/-- Validation of `CreateCubeInput`: `name` has the length bounds and the
`validate_name` validator; `size` is declared `gt=0.001, le=1000.0`;
`location` defaults to `(0,0,0)` and has `validate_location`. -/
def validateCreateCube (name : String) (size : ℚ) (location : V3) :
    Except String CreateCubeInput :=
  match validateEntityName name with
  | .error e => .error e
  | .ok nm =>
    if ¬ (mkRat 1 1000 < size) then .error "Input should be greater than 0.001"
    else if ¬ (size ≤ (1000 : ℚ)) then .error "Input should be less than or equal to 1000"
    else
      match checkLocation location with
      | .error e => .error e
      | .ok loc => .ok ⟨nm, size, loc⟩

example : exOk (validateCreateCube "ok" 2 (0, 0, 0)) = true := by decide
example : exOk (validateCreateCube "ok" 0 (0, 0, 0)) = false := by decide
example : validateCreateCube "  a  " 2 (0, 0, 0) = .ok ⟨"a", 2, (0, 0, 0)⟩ := by decide
example : validateCreateCube "   " 2 (0, 0, 0) = .ok ⟨"", 2, (0, 0, 0)⟩ := by decide

/-- `CreateSphereInput` (src/src/models.py lines 52-146): field order
`name`, `segments`, `ring_count`, `radius`, `calc_uvs`, `enter_editmode`,
`align`, `location`, `rotation`, `scale`. -/
structure CreateSphereInput where
  name : String
  segments : Int
  ring_count : Int
  radius : ℚ
  calc_uvs : Bool
  enter_editmode : Bool
  align : String
  location : V3
  rotation : V3
  scale : V3
deriving Repr, DecidableEq

/-- The `validate_scale` validator of `CreateSphereInput`: each component
`>= 0.0` and `<= 1000.0`. -/
def checkSphereScale (v : V3) : Except String V3 :=
  if ¬ (0 ≤ v.1 ∧ 0 ≤ v.2.1 ∧ 0 ≤ v.2.2) then .error "Scale values must be >= 0.0"
  else if ¬ (v.1 ≤ 1000 ∧ v.2.1 ≤ 1000 ∧ v.2.2 ≤ 1000) then .error "Scale values must be <= 1000.0"
  else .ok v

/-- Validation of `CreateSphereInput`. Note from the source: `radius` is
declared `ge=0.0, le=1000.0` (it admits `0.0`), `align` is an exact-match
`Literal`, and `rotation` shares the `±10000.0` `validate_vector3`
validator with `location`. -/
def validateCreateSphere (name : String) (segments ring_count : Int)
    (radius : ℚ) (calc_uvs enter_editmode : Bool) (align : String)
    (location rotation scale : V3) : Except String CreateSphereInput :=
  match validateEntityName name with
  | .error e => .error e
  | .ok nm =>
    if ¬ (3 ≤ segments) then .error "Input should be greater than or equal to 3"
    else if ¬ (segments ≤ 100000) then .error "Input should be less than or equal to 100000"
    else if ¬ (3 ≤ ring_count) then .error "Input should be greater than or equal to 3"
    else if ¬ (ring_count ≤ 100000) then .error "Input should be less than or equal to 100000"
    else if ¬ ((0 : ℚ) ≤ radius) then .error "Input should be greater than or equal to 0"
    else if ¬ (radius ≤ (1000 : ℚ)) then .error "Input should be less than or equal to 1000"
    else if ¬ (align = "WORLD" ∨ align = "VIEW" ∨ align = "CURSOR") then
      .error "Input should be 'WORLD', 'VIEW' or 'CURSOR'"
    else
      match checkVector3 location with
      | .error e => .error e
      | .ok loc =>
        match checkVector3 rotation with
        | .error e => .error e
        | .ok rot =>
          match checkSphereScale scale with
          | .error e => .error e
          | .ok sc =>
            .ok ⟨nm, segments, ring_count, radius, calc_uvs, enter_editmode, align, loc, rot, sc⟩

/-- `MoveObjectInput` (src/src/models.py lines 149-170): `name` has only the
length bounds (no character validator, no trim); `location` is required and
checked against `±10000.0`. -/
structure MoveObjectInput where
  name : String
  location : V3
deriving Repr, DecidableEq

def validateMoveObject (name : String) (location : V3) : Except String MoveObjectInput :=
  match validateLenOnlyName name with
  | .error e => .error e
  | .ok nm =>
    match checkLocation location with
    | .error e => .error e
    | .ok loc => .ok ⟨nm, loc⟩

/-- `DeleteObjectInput` (src/src/models.py lines 173-180): length bounds only. -/
structure DeleteObjectInput where
  name : String
deriving Repr, DecidableEq

def validateDeleteObject (name : String) : Except String DeleteObjectInput :=
  match validateLenOnlyName name with
  | .error e => .error e
  | .ok nm => .ok ⟨nm⟩

/-- `SelectObjectInput` (src/src/models.py lines 183-190): length bounds only. -/
structure SelectObjectInput where
  name : String
deriving Repr, DecidableEq

def validateSelectObject (name : String) : Except String SelectObjectInput :=
  match validateLenOnlyName name with
  | .error e => .error e
  | .ok nm => .ok ⟨nm⟩

/-- `CreateMaterialInput` (src/src/models.py lines 193-214): `name` has only
the length bounds (no character validator); `color` components must lie in
`[0.0, 1.0]`. -/
structure CreateMaterialInput where
  name : String
  color : V3
deriving Repr, DecidableEq

def validateCreateMaterial (name : String) (color : V3) : Except String CreateMaterialInput :=
  match validateLenOnlyName name with
  | .error e => .error e
  | .ok nm =>
    if ¬ ((0 ≤ color.1 ∧ color.1 ≤ 1) ∧ (0 ≤ color.2.1 ∧ color.2.1 ≤ 1) ∧
        (0 ≤ color.2.2 ∧ color.2.2 ≤ 1)) then
      .error "Color values must be between 0.0 and 1.0"
    else .ok ⟨nm, color⟩

/-- `AssignMaterialInput` (src/src/models.py lines 217-230): both names have
only the length bounds. -/
structure AssignMaterialInput where
  object_name : String
  material_name : String
deriving Repr, DecidableEq

def validateAssignMaterial (object_name material_name : String) :
    Except String AssignMaterialInput :=
  match validateLenOnlyName object_name with
  | .error e => .error e
  | .ok o =>
    match validateLenOnlyName material_name with
    | .error e => .error e
    | .ok m => .ok ⟨o, m⟩

/-- The `2 * pi` bound of `RotateObjectInput.validate_rotation`
(`limit = 6.28318` in the source). -/
def rotationLimit : ℚ := mkRat 628318 100000

/-- `RotateObjectInput` (src/src/models.py lines 233-254): `name` has only
the length bounds; each rotation component must be within `±6.28318`. -/
structure RotateObjectInput where
  name : String
  rotation : V3
deriving Repr, DecidableEq

def validateRotateObject (name : String) (rotation : V3) : Except String RotateObjectInput :=
  match validateLenOnlyName name with
  | .error e => .error e
  | .ok nm =>
    if v3Within rotationLimit rotation then .ok ⟨nm, rotation⟩
    else .error "Rotation values should be within ±6.28318 radians (approximately ±360 degrees)"

/-- `ScaleObjectInput` (src/src/models.py lines 257-279): `name` has only the
length bounds; each scale component must be `> 0` and `<= 1000.0`. -/
structure ScaleObjectInput where
  name : String
  scale : V3
deriving Repr, DecidableEq

def validateScaleObject (name : String) (scale : V3) : Except String ScaleObjectInput :=
  match validateLenOnlyName name with
  | .error e => .error e
  | .ok nm =>
    if ¬ (0 < scale.1 ∧ 0 < scale.2.1 ∧ 0 < scale.2.2) then
      .error "Scale values must be positive (greater than 0)"
    else if ¬ (scale.1 ≤ 1000 ∧ scale.2.1 ≤ 1000 ∧ scale.2.2 ≤ 1000) then
      .error "Scale values must be <= 1000.0"
    else .ok ⟨nm, scale⟩

/-- `GetObjectInfoInput` (src/src/models.py lines 282-289): length bounds only. -/
structure GetObjectInfoInput where
  name : String
deriving Repr, DecidableEq

def validateGetObjectInfo (name : String) : Except String GetObjectInfoInput :=
  match validateLenOnlyName name with
  | .error e => .error e
  | .ok nm => .ok ⟨nm⟩

/-- `CreateCameraInput` (src/src/models.py lines 292-328): `name` has the
length bounds and `validate_name`; `location` has `validate_location`;
`rotation` is declared with NO validator at all in the source. -/
structure CreateCameraInput where
  name : String
  location : V3
  rotation : V3
deriving Repr, DecidableEq

def validateCreateCamera (name : String) (location rotation : V3) :
    Except String CreateCameraInput :=
  match validateEntityName name with
  | .error e => .error e
  | .ok nm =>
    match checkLocation location with
    | .error e => .error e
    | .ok loc => .ok ⟨nm, loc, rotation⟩

/-- `CreateLightInput` (src/src/models.py lines 331-383): `light_type` is
upper-cased and must be one of SUN/POINT/SPOT/AREA; `energy` lies in
`[0.0, 1000.0]`. -/
structure CreateLightInput where
  name : String
  light_type : String
  location : V3
  energy : ℚ
deriving Repr, DecidableEq

def validateCreateLight (name light_type : String) (location : V3) (energy : ℚ) :
    Except String CreateLightInput :=
  match validateEntityName name with
  | .error e => .error e
  | .ok nm =>
    if ¬ (pyUpper light_type = "SUN" ∨ pyUpper light_type = "POINT" ∨
        pyUpper light_type = "SPOT" ∨ pyUpper light_type = "AREA") then
      .error "Light type must be one of: SUN, POINT, SPOT, AREA"
    else
      match checkLocation location with
      | .error e => .error e
      | .ok loc =>
        if ¬ ((0 : ℚ) ≤ energy) then .error "Input should be greater than or equal to 0"
        else if ¬ (energy ≤ (1000 : ℚ)) then .error "Input should be less than or equal to 1000"
        else .ok ⟨nm, pyUpper light_type, loc, energy⟩

/-- `RenderSceneInput` (src/src/models.py lines 386-415): `filepath` must be
nonempty and end (case-insensitively) with an allowed image extension;
resolutions lie in `[1, 10000]`. The filepath validator returns `v`
unchanged. -/
structure RenderSceneInput where
  filepath : String
  resolution_x : Int
  resolution_y : Int
deriving Repr, DecidableEq

def imageExtensions : List String :=
  [".png", ".jpg", ".jpeg", ".bmp", ".tiff", ".exr"]

def validateRenderScene (filepath : String) (resolution_x resolution_y : Int) :
    Except String RenderSceneInput :=
  if filepath.length < 1 then .error "String should have at least 1 character"
  else if ¬ (imageExtensions.any (fun ext => pyEndsWith (pyLower filepath) ext)) then
    .error "Filepath must end with one of: .png, .jpg, .jpeg, .bmp, .tiff, .exr"
  else if ¬ (1 ≤ resolution_x) then .error "Input should be greater than or equal to 1"
  else if ¬ (resolution_x ≤ 10000) then .error "Input should be less than or equal to 10000"
  else if ¬ (1 ≤ resolution_y) then .error "Input should be greater than or equal to 1"
  else if ¬ (resolution_y ≤ 10000) then .error "Input should be less than or equal to 10000"
  else .ok ⟨filepath, resolution_x, resolution_y⟩

/-- `CreateCylinderInput` (src/src/models.py lines 418-470): `radius` and
`depth` are both `gt=0.001, le=1000.0`; `vertices` lies in `[3, 256]`. -/
structure CreateCylinderInput where
  name : String
  radius : ℚ
  depth : ℚ
  location : V3
  vertices : Int
deriving Repr, DecidableEq

def validateCreateCylinder (name : String) (radius depth : ℚ) (location : V3)
    (vertices : Int) : Except String CreateCylinderInput :=
  match validateEntityName name with
  | .error e => .error e
  | .ok nm =>
    if ¬ (mkRat 1 1000 < radius) then .error "Input should be greater than 0.001"
    else if ¬ (radius ≤ (1000 : ℚ)) then .error "Input should be less than or equal to 1000"
    else if ¬ (mkRat 1 1000 < depth) then .error "Input should be greater than 0.001"
    else if ¬ (depth ≤ (1000 : ℚ)) then .error "Input should be less than or equal to 1000"
    else
      match checkLocation location with
      | .error e => .error e
      | .ok loc =>
        if ¬ (3 ≤ vertices) then .error "Input should be greater than or equal to 3"
        else if ¬ (vertices ≤ 256) then .error "Input should be less than or equal to 256"
        else .ok ⟨nm, radius, depth, loc, vertices⟩

/-- `CreatePlaneInput` (src/src/models.py lines 473-511): `size` is
`gt=0.001, le=1000.0`. -/
structure CreatePlaneInput where
  name : String
  size : ℚ
  location : V3
deriving Repr, DecidableEq

def validateCreatePlane (name : String) (size : ℚ) (location : V3) :
    Except String CreatePlaneInput :=
  match validateEntityName name with
  | .error e => .error e
  | .ok nm =>
    if ¬ (mkRat 1 1000 < size) then .error "Input should be greater than 0.001"
    else if ¬ (size ≤ (1000 : ℚ)) then .error "Input should be less than or equal to 1000"
    else
      match checkLocation location with
      | .error e => .error e
      | .ok loc => .ok ⟨nm, size, loc⟩

/-- `DuplicateObjectInput` (src/src/models.py lines 514-553): the source
`name` has only the length bounds, `new_name` also has `validate_name`
(characters + trim); `location` is optional. -/
structure DuplicateObjectInput where
  name : String
  new_name : String
  location : Option V3
deriving Repr, DecidableEq

def validateDuplicateObject (name new_name : String) (location : Option V3) :
    Except String DuplicateObjectInput :=
  match validateLenOnlyName name with
  | .error e => .error e
  | .ok nm =>
    match validateEntityName new_name with
    | .error e => .error e
    | .ok nn =>
      match location with
      | none => .ok ⟨nm, nn, none⟩
      | some v =>
        match checkLocation v with
        | .error e => .error e
        | .ok loc => .ok ⟨nm, nn, some loc⟩

/-- `SetActiveCameraInput` (src/src/models.py lines 556-563): length bounds only. -/
structure SetActiveCameraInput where
  camera_name : String
deriving Repr, DecidableEq

def validateSetActiveCamera (camera_name : String) : Except String SetActiveCameraInput :=
  match validateLenOnlyName camera_name with
  | .error e => .error e
  | .ok nm => .ok ⟨nm⟩

/-- `SaveFileInput` (src/src/models.py lines 566-580): nonempty filepath that
ends (case-insensitively) with `.blend`; the validator returns `v.strip()`. -/
structure SaveFileInput where
  filepath : String
deriving Repr, DecidableEq

def validateSaveFile (filepath : String) : Except String SaveFileInput :=
  if filepath.length < 1 then .error "String should have at least 1 character"
  else if ¬ (pyEndsWith (pyLower filepath) ".blend") then
    .error "Filepath must end with .blend extension"
  else .ok ⟨pyStripStr filepath⟩

/-- `OpenFileInput` (src/src/models.py lines 583-597): same shape as
`SaveFileInput`. -/
structure OpenFileInput where
  filepath : String
deriving Repr, DecidableEq

def validateOpenFile (filepath : String) : Except String OpenFileInput :=
  if filepath.length < 1 then .error "String should have at least 1 character"
  else if ¬ (pyEndsWith (pyLower filepath) ".blend") then
    .error "Filepath must end with .blend extension"
  else .ok ⟨pyStripStr filepath⟩

example : exOk (validateCreateSphere "Ball" 32 16 0 true false "WORLD" (0,0,0) (0,0,0) (1,1,1)) = true := by decide
example : exOk (validateCreateSphere "Ball" 32 16 1 true false "WORLD" (0,0,0) (7,0,0) (1,1,1)) = true := by decide
example : exOk (validateRotateObject "ok" (7,0,0)) = false := by decide
example : exOk (validateMoveObject "a/b" (0,0,0)) = true := by decide
example : exOk (validateCreateCamera "Cam" (0,0,0) (5000,0,0)) = true := by decide

/-- A named entity of the host object model (`bpy.data.objects` entries):
name, Blender type string (`'MESH'`, `'CAMERA'`, ...), transform, and the
object-data material slots used by `assign_material`. -/
structure SceneObject where
  name : String
  objType : String
  location : V3
  rotation : V3
  scale : V3
  materials : List String
deriving Repr, DecidableEq

/-- The host object model reachable through `bpy`: objects, the material
datablock names (`bpy.data.materials`), the context's active object, the
selection set, the scene's active camera and `bpy.data.filepath`. -/
structure Scene where
  objects : List SceneObject
  materials : List String
  activeObject : Option String
  selected : List String
  sceneCamera : Option String
  filepath : String
deriving Repr, DecidableEq

/-- `bpy.data.objects.get(name)`. -/
def objGet (s : Scene) (n : String) : Option SceneObject :=
  s.objects.find? (fun o => o.name == n)

/-- Apply `f` to the object named `n` (models attribute assignment on a
`bpy` object reference). -/
def updateObject (s : Scene) (n : String) (f : SceneObject → SceneObject) : Scene :=
  { s with objects := s.objects.map (fun o => if o.name == n then f o else o) }

/-- A Python exception crossing a handler: either the `ImportError` of
`import bpy`, or any other `Exception` carrying `str(e)`. -/
inductive PyExn where
  | importError (msg : String)
  | other (msg : String)
deriving Repr, DecidableEq

/-- `str(e)` of a caught exception. -/
def pyExnMsg : PyExn → String
  | .importError m => m
  | .other m => m

/-- The opaque host capability: whether `import bpy` succeeds, and the
behavior of the one `bpy.ops` mutation the embedded creation handler
performs. `primitive_cube_add` either raises (left, with the scene at the
raise point) or returns the mutated scene in which the host has added a
cube and made it the active object. -/
structure Host where
  bpyAvailable : Bool
  primitive_cube_add : ℚ → V3 → Scene → Except (String × Scene) Scene

/-- `except ImportError` body of every handler in src/src/operations.py. -/
def bpyNotFoundMsg : String :=
  "Error: bpy module not found. Tool must run in Blender environment."

/-- `try ... except ImportError ... except Exception` of a handler: a body
that may raise is reduced to a plain result. Both `except` clauses return,
so every `PyExn` is converted to a result value. -/
def pyCatch {α : Type} (body : Except (PyExn × Scene) α)
    (handler : PyExn → Scene → α) : α :=
  match body with
  | .ok a => a
  | .error (e, s) => handler e s

/-- The same `try/except` viewed at the exception-transport level: the
result records what (if anything) escapes the `try` statement. Since the
source `except` clauses always `return`, the handler wraps its value in
`.ok`. -/
def tryCatchE {α : Type} (body : Except (PyExn × Scene) α)
    (handler : PyExn → Scene → Except (PyExn × Scene) α) : Except (PyExn × Scene) α :=
  match body with
  | .ok a => .ok a
  | .error (e, s) => handler e s

/-- The shared tail of every operation handler:
`except ImportError: return bpyNotFoundMsg` /
`except Exception as e: return "Error [<label>]: " + str(e)`. -/
def opExcept (label : String) : PyExn → Scene → String × Scene
  | .importError _, s => (bpyNotFoundMsg, s)
  | .other m, s => ("Error [" ++ label ++ "]: " ++ m, s)

/-- Stand-in for Python `str()` of a float (numeric formatting is not the
subject of any claim). -/
def fmtQ (q : ℚ) : String := toString q

/-- Stand-in for Python `str()` of a 3-tuple. -/
def fmtV3 (v : V3) : String :=
  "(" ++ fmtQ v.1 ++ ", " ++ fmtQ v.2.1 ++ ", " ++ fmtQ v.2.2 ++ ")"

/-- `cube.name = input.name` after creation: rename the object `old` (the
active object) and keep the context reference pointing at it. -/
def renameObject (s : Scene) (old new : String) : Scene :=
  { s with
    objects := s.objects.map (fun o => if o.name == old then { o with name := new } else o),
    activeObject := if s.activeObject == some old then some new else s.activeObject }

/-- Body of `create_cube` (src/src/operations.py lines 58-77): `import bpy`,
`bpy.ops.mesh.primitive_cube_add(size=..., location=...)`, then read
`bpy.context.active_object`, rename it and build the success message, or
report the lost reference. -/
def create_cube_body (h : Host) (s : Scene) (inp : CreateCubeInput) :
    Except (PyExn × Scene) (String × Scene) :=
  if h.bpyAvailable then
    match h.primitive_cube_add inp.size inp.location s with
    | .error (m, s1) => .error (.other m, s1)
    | .ok s1 =>
      match s1.activeObject with
      | none => .ok ("Error: Cube created but could not get reference to object", s1)
      | some objName =>
        let s2 := renameObject s1 objName inp.name
        .ok ("Successfully created cube '" ++ inp.name ++ "' with size " ++ fmtQ inp.size ++
          " at location " ++ fmtV3 inp.location, s2)
  else .error (.importError "No module named bpy", s)

/-- `create_cube` (src/src/operations.py lines 33-81). -/
def create_cube (h : Host) (s : Scene) (inp : CreateCubeInput) : String × Scene :=
  pyCatch (create_cube_body h s inp) (opExcept "Create Cube")

/-- Body of `move_object` (src/src/operations.py lines 178-194): look the
object up first; a missing object returns the not-found message before any
mutation; otherwise make it active, select it and set its location. -/
def move_object_body (h : Host) (s : Scene) (inp : MoveObjectInput) :
    Except (PyExn × Scene) (String × Scene) :=
  if h.bpyAvailable then
    match objGet s inp.name with
    | none => .ok ("Error: Object '" ++ inp.name ++ "' not found", s)
    | some obj =>
      let s1 := { s with activeObject := some obj.name }
      let s2 := if s1.selected.contains obj.name then s1
        else { s1 with selected := obj.name :: s1.selected }
      let s3 := updateObject s2 obj.name (fun o => { o with location := inp.location })
      .ok ("Successfully moved object '" ++ inp.name ++ "' to location " ++
        fmtV3 inp.location, s3)
  else .error (.importError "No module named bpy", s)

/-- `move_object` (src/src/operations.py lines 154-199). -/
def move_object (h : Host) (s : Scene) (inp : MoveObjectInput) : String × Scene :=
  pyCatch (move_object_body h s inp) (opExcept "Move Object")

/-- Body of `delete_object` (src/src/operations.py lines 273-283). -/
def delete_object_body (h : Host) (s : Scene) (inp : DeleteObjectInput) :
    Except (PyExn × Scene) (String × Scene) :=
  if h.bpyAvailable then
    match objGet s inp.name with
    | none => .ok ("Error: Object '" ++ inp.name ++ "' not found", s)
    | some obj =>
      let s1 := { s with objects := s.objects.filter (fun o => ¬ (o.name == obj.name)) }
      .ok ("Successfully deleted object '" ++ inp.name ++ "'", s1)
  else .error (.importError "No module named bpy", s)

/-- `delete_object` (src/src/operations.py lines 250-288). -/
def delete_object (h : Host) (s : Scene) (inp : DeleteObjectInput) : String × Scene :=
  pyCatch (delete_object_body h s inp) (opExcept "Delete Object")

/-- Body of `assign_material` (src/src/operations.py lines 431-452): look up
the object, then the material, each missing lookup returning its not-found
message before any mutation; then replace the first material slot or append. -/
def assign_material_body (h : Host) (s : Scene) (inp : AssignMaterialInput) :
    Except (PyExn × Scene) (String × Scene) :=
  if h.bpyAvailable then
    match objGet s inp.object_name with
    | none => .ok ("Error: Object '" ++ inp.object_name ++ "' not found", s)
    | some obj =>
      if ¬ (s.materials.contains inp.material_name) then
        .ok ("Error: Material '" ++ inp.material_name ++ "' not found", s)
      else
        let s1 := updateObject s obj.name (fun o =>
          { o with materials :=
              match o.materials with
              | [] => [inp.material_name]
              | _ :: tl => inp.material_name :: tl })
        .ok ("Successfully assigned material '" ++ inp.material_name ++ "' to object '" ++
          inp.object_name ++ "'", s1)
  else .error (.importError "No module named bpy", s)

/-- `assign_material` (src/src/operations.py lines 406-457). -/
def assign_material (h : Host) (s : Scene) (inp : AssignMaterialInput) : String × Scene :=
  pyCatch (assign_material_body h s inp) (opExcept "Assign Material")

/-- Body of `rotate_object` (src/src/operations.py lines 483-497). -/
def rotate_object_body (h : Host) (s : Scene) (inp : RotateObjectInput) :
    Except (PyExn × Scene) (String × Scene) :=
  if h.bpyAvailable then
    match objGet s inp.name with
    | none => .ok ("Error: Object '" ++ inp.name ++ "' not found", s)
    | some obj =>
      let s1 := updateObject s obj.name (fun o => { o with rotation := inp.rotation })
      .ok ("Successfully rotated object '" ++ inp.name ++ "' to rotation " ++
        fmtV3 inp.rotation, s1)
  else .error (.importError "No module named bpy", s)

/-- `rotate_object` (src/src/operations.py lines 460-502). -/
def rotate_object (h : Host) (s : Scene) (inp : RotateObjectInput) : String × Scene :=
  pyCatch (rotate_object_body h s inp) (opExcept "Rotate Object")

/-- Body of `scale_object` (src/src/operations.py lines 528-542). -/
def scale_object_body (h : Host) (s : Scene) (inp : ScaleObjectInput) :
    Except (PyExn × Scene) (String × Scene) :=
  if h.bpyAvailable then
    match objGet s inp.name with
    | none => .ok ("Error: Object '" ++ inp.name ++ "' not found", s)
    | some obj =>
      let s1 := updateObject s obj.name (fun o => { o with scale := inp.scale })
      .ok ("Successfully scaled object '" ++ inp.name ++ "' to scale " ++
        fmtV3 inp.scale, s1)
  else .error (.importError "No module named bpy", s)

/-- `scale_object` (src/src/operations.py lines 505-547). -/
def scale_object (h : Host) (s : Scene) (inp : ScaleObjectInput) : String × Scene :=
  pyCatch (scale_object_body h s inp) (opExcept "Scale Object")

/-- Body of `set_active_camera` (src/src/operations.py lines 1021-1036):
missing camera and wrong-type checks both return before the scene's camera
reference is mutated. -/
def set_active_camera_body (h : Host) (s : Scene) (inp : SetActiveCameraInput) :
    Except (PyExn × Scene) (String × Scene) :=
  if h.bpyAvailable then
    match objGet s inp.camera_name with
    | none => .ok ("Error: Camera '" ++ inp.camera_name ++ "' not found", s)
    | some obj =>
      if ¬ (obj.objType == "CAMERA") then
        .ok ("Error: Object '" ++ inp.camera_name ++ "' is not a camera (type: " ++
          obj.objType ++ ")", s)
      else
        .ok ("Successfully set '" ++ inp.camera_name ++ "' as active camera",
          { s with sceneCamera := some obj.name })
  else .error (.importError "No module named bpy", s)

/-- `set_active_camera` (src/src/operations.py lines 999-1041). -/
def set_active_camera (h : Host) (s : Scene) (inp : SetActiveCameraInput) : String × Scene :=
  pyCatch (set_active_camera_body h s inp) (opExcept "Set Active Camera")

/-- Body of `get_scene_filepath` (src/src/operations.py lines 878-885):
read `bpy.data.filepath`; nonempty means saved. -/
def get_scene_filepath_body (h : Host) (s : Scene) :
    Except (PyExn × Scene) (String × Scene) :=
  if h.bpyAvailable then
    if ¬ (s.filepath == "") then .ok ("Current Blender file: " ++ s.filepath, s)
    else .ok ("File not saved yet (unsaved file)", s)
  else .error (.importError "No module named bpy", s)

/-- `get_scene_filepath` (src/src/operations.py lines 857-890). -/
def get_scene_filepath (h : Host) (s : Scene) : String × Scene :=
  pyCatch (get_scene_filepath_body h s) (opExcept "Get Scene Filepath")

/-- The `try: model = Input(...); return handler(model) / except Exception:`
shape shared by every tool wrapper in src/src/tools.py, with an invocation
counter in place of the handler call so theorems can state that a handler
was never invoked. -/
def runTool {M : Type} (validated : Except String M) (handler : M → String) :
    String × Nat :=
  match validated with
  | .error msg => ("Error: " ++ msg, 0)
  | .ok m => (handler m, 1)

/-- `create_cube_tool` (src/src/tools.py lines 55-82), with the real
handler; the `Nat` component counts handler invocations. -/
def create_cube_tool (h : Host) (s : Scene) (name : String) (size : ℚ)
    (location : V3) : String × Scene × Nat :=
  match validateCreateCube name size location with
  | .error msg => ("Error: " ++ msg, s, 0)
  | .ok m =>
    let r := create_cube h s m
    (r.1, r.2, 1)

/-- `create_cube_tool` viewed at the exception-transport level: the body
that can raise (validation raising `ValidationError`, the handler being
already total) guarded by the tool's own `except Exception` clause. The
result records what escapes the tool boundary. -/
def create_cube_tool_body (h : Host) (s : Scene) (name : String) (size : ℚ)
    (location : V3) : Except (PyExn × Scene) (String × Scene × Nat) :=
  match validateCreateCube name size location with
  | .error msg => .error (.other msg, s)
  | .ok m =>
    let r := create_cube h s m
    .ok (r.1, r.2, 1)

def create_cube_tool_exc (h : Host) (s : Scene) (name : String) (size : ℚ)
    (location : V3) : Except (PyExn × Scene) (String × Scene × Nat) :=
  tryCatchE (create_cube_tool_body h s name size location)
    (fun e s1 => .ok ("Error: " ++ pyExnMsg e, s1, 0))

/-- `get_scene_filepath_tool` (src/src/tools.py lines 647-662): the one tool
wrapper with NO `try/except` of its own; it returns the handler result
directly, and the handler is total because its own `except` clauses catch
everything. -/
def get_scene_filepath_tool (h : Host) (s : Scene) : String × Scene :=
  get_scene_filepath h s

/-- `get_scene_filepath` at the exception-transport level: what escapes the
operation's `try` statement. -/
def get_scene_filepath_exc (h : Host) (s : Scene) :
    Except (PyExn × Scene) (String × Scene) :=
  tryCatchE (get_scene_filepath_body h s)
    (fun e s1 => .ok (opExcept "Get Scene Filepath" e s1))

/-- `move_object_tool` (src/src/tools.py lines 140-166). -/
def move_object_tool (h : Host) (s : Scene) (name : String) (location : V3) :
    String × Scene × Nat :=
  match validateMoveObject name location with
  | .error msg => ("Error: " ++ msg, s, 0)
  | .ok m =>
    let r := move_object h s m
    (r.1, r.2, 1)

/-- `delete_object_tool` (src/src/tools.py lines 189-210). -/
def delete_object_tool (h : Host) (s : Scene) (name : String) :
    String × Scene × Nat :=
  match validateDeleteObject name with
  | .error msg => ("Error: " ++ msg, s, 0)
  | .ok m =>
    let r := delete_object h s m
    (r.1, r.2, 1)

/-- `assign_material_tool` (src/src/tools.py lines 265-290). -/
def assign_material_tool (h : Host) (s : Scene) (object_name material_name : String) :
    String × Scene × Nat :=
  match validateAssignMaterial object_name material_name with
  | .error msg => ("Error: " ++ msg, s, 0)
  | .ok m =>
    let r := assign_material h s m
    (r.1, r.2, 1)

/-- `rotate_object_tool` (src/src/tools.py lines 293-319). -/
def rotate_object_tool (h : Host) (s : Scene) (name : String) (rotation : V3) :
    String × Scene × Nat :=
  match validateRotateObject name rotation with
  | .error msg => ("Error: " ++ msg, s, 0)
  | .ok m =>
    let r := rotate_object h s m
    (r.1, r.2, 1)

/-- `scale_object_tool` (src/src/tools.py lines 322-348). -/
def scale_object_tool (h : Host) (s : Scene) (name : String) (scale : V3) :
    String × Scene × Nat :=
  match validateScaleObject name scale with
  | .error msg => ("Error: " ++ msg, s, 0)
  | .ok m =>
    let r := scale_object h s m
    (r.1, r.2, 1)

/-- `set_active_camera_tool` (src/src/tools.py lines 547-569). -/
def set_active_camera_tool (h : Host) (s : Scene) (camera_name : String) :
    String × Scene × Nat :=
  match validateSetActiveCamera camera_name with
  | .error msg => ("Error: " ++ msg, s, 0)
  | .ok m =>
    let r := set_active_camera h s m
    (r.1, r.2, 1)

/-- `create_sphere_tool` (src/src/tools.py lines 85-137); the handler stays
abstract (the host side of sphere creation decides no claim). -/
def create_sphere_tool (handler : CreateSphereInput → String) (name : String)
    (segments ring_count : Int) (radius : ℚ) (calc_uvs enter_editmode : Bool)
    (align : String) (location rotation scale : V3) : String × Nat :=
  runTool (validateCreateSphere name segments ring_count radius calc_uvs
    enter_editmode align location rotation scale) handler

/-- `select_object_tool` (src/src/tools.py lines 213-234). -/
def select_object_tool (handler : SelectObjectInput → String) (name : String) :
    String × Nat :=
  runTool (validateSelectObject name) handler

/-- `create_material_tool` (src/src/tools.py lines 237-262). -/
def create_material_tool (handler : CreateMaterialInput → String) (name : String)
    (color : V3) : String × Nat :=
  runTool (validateCreateMaterial name color) handler

/-- `get_object_info_tool` (src/src/tools.py lines 351-378). -/
def get_object_info_tool (handler : GetObjectInfoInput → String) (name : String) :
    String × Nat :=
  runTool (validateGetObjectInfo name) handler

/-- `create_camera_tool` (src/src/tools.py lines 381-412). -/
def create_camera_tool (handler : CreateCameraInput → String) (name : String)
    (location rotation : V3) : String × Nat :=
  runTool (validateCreateCamera name location rotation) handler

/-- `create_light_tool` (src/src/tools.py lines 415-453). -/
def create_light_tool (handler : CreateLightInput → String) (name light_type : String)
    (location : V3) (energy : ℚ) : String × Nat :=
  runTool (validateCreateLight name light_type location energy) handler

/-- `render_scene_tool` (src/src/tools.py lines 456-488). -/
def render_scene_tool (handler : RenderSceneInput → String) (filepath : String)
    (resolution_x resolution_y : Int) : String × Nat :=
  runTool (validateRenderScene filepath resolution_x resolution_y) handler

/-- `create_cylinder_tool` (src/src/tools.py lines 572-610). -/
def create_cylinder_tool (handler : CreateCylinderInput → String) (name : String)
    (radius depth : ℚ) (location : V3) (vertices : Int) : String × Nat :=
  runTool (validateCreateCylinder name radius depth location vertices) handler

/-- `create_plane_tool` (src/src/tools.py lines 613-644). -/
def create_plane_tool (handler : CreatePlaneInput → String) (name : String)
    (size : ℚ) (location : V3) : String × Nat :=
  runTool (validateCreatePlane name size location) handler

/-- `duplicate_object_tool` (src/src/tools.py lines 513-544). -/
def duplicate_object_tool (handler : DuplicateObjectInput → String)
    (name new_name : String) (location : Option V3) : String × Nat :=
  runTool (validateDuplicateObject name new_name location) handler

/-- `save_file_tool` (src/src/tools.py lines 665-686). -/
def save_file_tool (handler : SaveFileInput → String) (filepath : String) :
    String × Nat :=
  runTool (validateSaveFile filepath) handler

/-- `open_file_tool` (src/src/tools.py lines 689-709). -/
def open_file_tool (handler : OpenFileInput → String) (filepath : String) :
    String × Nat :=
  runTool (validateOpenFile filepath) handler

/-- JSON insignificant whitespace. -/
def isJsonWs (c : Char) : Bool :=
  c = ' ' || c = '\t' || c = '\n' || c = '\r'

def skipJsonWs (s : List Char) : List Char :=
  s.dropWhile isJsonWs

/-- Rest of a JSON string after the opening quote: scan to the closing
quote, an escape consuming the following character. -/
def jsonStringRest : List Char → Option (List Char)
  | [] => none
  | '"' :: rest => some rest
  | '\\' :: [] => none
  | '\\' :: _ :: rest => jsonStringRest rest
  | _ :: rest => jsonStringRest rest

/-- One or more digits, consumed greedily. -/
def jsonDigits1 : List Char → Option (List Char)
  | [] => none
  | c :: rest => if c.isDigit then some (rest.dropWhile Char.isDigit) else none

/-- Integer part of a JSON number: `0` or a nonzero digit followed by digits. -/
def jsonNumberIntPart : List Char → Option (List Char)
  | [] => none
  | '0' :: rest => some rest
  | c :: rest => if c.isDigit then some (rest.dropWhile Char.isDigit) else none

def jsonNumberFrac : List Char → Option (List Char)
  | '.' :: rest => jsonDigits1 rest
  | s => some s

def jsonExpTail : List Char → Option (List Char)
  | '+' :: rest => jsonDigits1 rest
  | '-' :: rest => jsonDigits1 rest
  | s => jsonDigits1 s

def jsonNumberExp : List Char → Option (List Char)
  | 'e' :: rest => jsonExpTail rest
  | 'E' :: rest => jsonExpTail rest
  | s => some s

/-- A JSON number (sign, integer part, optional fraction and exponent). -/
def jsonNumber (s : List Char) : Option (List Char) :=
  let s0 := match s with
    | '-' :: rest => rest
    | _ => s
  match jsonNumberIntPart s0 with
  | none => none
  | some s1 =>
    match jsonNumberFrac s1 with
    | none => none
    | some s2 => jsonNumberExp s2

def expectLit (lit : List Char) (s : List Char) : Option (List Char) :=
  if lit.isPrefixOf s then some (s.drop lit.length) else none

mutual

/-- Recursive-descent recognizer for one JSON value (fuel-indexed; the
driver passes ample fuel). Returns the unconsumed remainder on success. -/
def jsonValue : Nat → List Char → Option (List Char)
  | 0, _ => none
  | fuel + 1, s =>
    match skipJsonWs s with
    | [] => none
    | c :: rest =>
      if c = '\x7b' then jsonObject fuel rest
      else if c = '[' then jsonArray fuel rest
      else if c = '"' then jsonStringRest rest
      else if c = 't' then expectLit ['r', 'u', 'e'] rest
      else if c = 'f' then expectLit ['a', 'l', 's', 'e'] rest
      else if c = 'n' then expectLit ['u', 'l', 'l'] rest
      else jsonNumber (c :: rest)

/-- After the opening brace: an empty object or a member list. -/
def jsonObject : Nat → List Char → Option (List Char)
  | 0, _ => none
  | fuel + 1, s =>
    match skipJsonWs s with
    | [] => none
    | c :: rest =>
      if c = '\x7d' then some rest
      else jsonMembers fuel (c :: rest)

/-- `"key": value` pairs separated by commas, ending at the closing brace. -/
def jsonMembers : Nat → List Char → Option (List Char)
  | 0, _ => none
  | fuel + 1, s =>
    match skipJsonWs s with
    | '"' :: rest =>
      match jsonStringRest rest with
      | none => none
      | some afterKey =>
        match skipJsonWs afterKey with
        | ':' :: afterColon =>
          match jsonValue fuel afterColon with
          | none => none
          | some afterVal =>
            match skipJsonWs afterVal with
            | [] => none
            | c :: rest2 =>
              if c = ',' then jsonMembers fuel rest2
              else if c = '\x7d' then some rest2
              else none
        | _ => none
    | _ => none

/-- After the opening bracket: an empty array or an element list. -/
def jsonArray : Nat → List Char → Option (List Char)
  | 0, _ => none
  | fuel + 1, s =>
    match skipJsonWs s with
    | [] => none
    | c :: rest =>
      if c = ']' then some rest
      else jsonElements fuel (c :: rest)

/-- Array elements separated by commas, ending at the closing bracket. -/
def jsonElements : Nat → List Char → Option (List Char)
  | 0, _ => none
  | fuel + 1, s =>
    match jsonValue fuel s with
    | none => none
    | some afterVal =>
      match skipJsonWs afterVal with
      | [] => none
      | c :: rest =>
        if c = ',' then jsonElements fuel rest
        else if c = ']' then some rest
        else none

end

/-- `json.loads(s)` succeeding: one JSON value with only whitespace around
it. (Python additionally accepts `NaN`/`Infinity` and validates string
escapes more strictly; neither difference is reachable from the inputs any
claim is about.) -/
def jsonValid (s : List Char) : Bool :=
  match jsonValue (4 * s.length + 8) s with
  | some rest => (skipJsonWs rest).isEmpty
  | none => false

/-- `text.find('\x7b')`, falling back to `text.find('[')` — exactly the
order of `_extract_json_from_buffer` (src/blender_mcp_filter.py lines
155-163). -/
def findJsonStart (l : List Char) : Option Nat :=
  match l.findIdx? (fun c => c = '\x7b') with
  | some i => some i
  | none => l.findIdx? (fun c => c = '[')

/-- `json_str.startswith(('\x7b', '['))`. -/
def startsJson : List Char → Bool
  | [] => false
  | c :: _ => c = '\x7b' || c = '['

/-- Step 6 of the algorithm: try to parse the entire remaining buffer
(preamble already removed); on success emit it stripped and clear the
buffer, otherwise keep the buffer for the next read. -/
def tryWholeBuffer (buf : List Char) : List (List Char) × List Char :=
  let jsonStr := pyStrip buf
  if startsJson jsonStr && jsonValid jsonStr then ([jsonStr], [])
  else ([], buf)

/-- `_extract_json_from_buffer` (src/blender_mcp_filter.py lines 145-207)
as a function from the buffer to (emitted units, new buffer). The fuel
only bounds the source's recursion after an emitted line; the driver
passes more fuel than the buffer has characters, so it never runs out. -/
def extractFuel : Nat → List Char → List (List Char) × List Char
  | _, [] => ([], [])
  | 0, buf => ([], buf)
  | fuel + 1, buf =>
    match findJsonStart buf with
    | none => if 1000 < buf.length then ([], []) else ([], buf)
    | some i =>
      let buf1 := buf.drop i
      match buf1.findIdx? (fun c => c = '\n') with
      | some nl =>
        let jsonStr := pyStrip (buf1.take nl)
        if startsJson jsonStr && jsonValid jsonStr then
          let rest := extractFuel fuel (buf1.drop (nl + 1))
          ((jsonStr ++ ['\n']) :: rest.1, rest.2)
        else tryWholeBuffer buf1
      | none => tryWholeBuffer buf1

def extractJson (buf : List Char) : List (List Char) × List Char :=
  extractFuel (buf.length + 1) buf

/-- One iteration of the read loop of `filter_stdout`
(src/blender_mcp_filter.py lines 136-143): append the chunk, extract, then
apply the 100000-byte cap. -/
def filterStep (buf chunk : List Char) : List (List Char) × List Char :=
  let buf2 := buf ++ chunk
  let r := extractJson buf2
  (r.1, if 100000 < r.2.length then [] else r.2)

/-- The read loop over a whole sequence of chunks: all emitted units in
order, and the final buffer. -/
def filterRun : List Char → List (List Char) → List (List Char) × List Char
  | buf, [] => ([], buf)
  | buf, c :: cs =>
    let r := filterStep buf c
    let r2 := filterRun r.2 cs
    (r.1 ++ r2.1, r2.2)

/-- The end-of-process flush (src/blender_mcp_filter.py lines 116-127): if
the stripped residual buffer is a complete JSON text starting with a brace
or bracket, the raw residual buffer is written. -/
def finalFlush (buf : List Char) : List (List Char) :=
  if buf.isEmpty then []
  else
    let text := pyStrip buf
    if startsJson text && jsonValid text then [buf] else []

/-- Everything `filter_stdout` ever writes for a given chunk sequence. -/
def filterRunFinal (buf : List Char) (chunks : List (List Char)) : List (List Char) :=
  let r := filterRun buf chunks
  r.1 ++ finalFlush r.2

def bannerChunk : List Char :=
  "Blender 4.0 startup banner\n\x7b\"jsonrpc\":\"2.0\",\"id\":1,\"result\":42\x7d\nmore junk\n".data

def jsonFrame : List Char :=
  "\x7b\"jsonrpc\":\"2.0\",\"id\":1,\"result\":42\x7d".data

example : jsonValid jsonFrame = true := by decide
example : filterRun [] [bannerChunk] = ([jsonFrame ++ ['\n']], "more junk\n".data) := by decide

/-- An empty host scene. -/
def sceneEmpty : Scene := ⟨[], [], none, [], none, ""⟩

/-- A host whose capability is present and whose mutations never raise. -/
def hostAllOk : Host := ⟨true, fun _ _ s => .ok s⟩

/-- A host whose `bpy` capability is absent. -/
def hostNoBpy : Host := ⟨false, fun _ _ s => .ok s⟩

/-- C1: for every tool, a validation failure yields an `"Error: ..."` result
string and the handler is never invoked (invocation count 0). The first
conjunct settles it for the dispatch shape `runTool` shared by every tool
wrapper of src/src/tools.py; the second instantiates it on the real
`create_cube_tool` at the spec's concrete example `size = 0.0`. -/
theorem claim_C1_validation_rejects_without_handler :
    (∀ (M : Type) (v : Except String M) (handler : M → String) (msg : String),
      v = .error msg → runTool v handler = ("Error: " ++ msg, 0)) ∧
    (∀ (h : Host) (s : Scene),
      create_cube_tool h s "ok" 0 (0, 0, 0) =
        ("Error: Input should be greater than 0.001", s, 0)) := by
  constructor
  · intro M v handler msg hv
    rw [hv]
    rfl
  · intro h s
    rfl

theorem claim_C1_witness :
    runTool (Except.error "boom" : Except String Nat) (fun _ => "ok") = ("Error: boom", 0) :=
  claim_C1_validation_rejects_without_handler.1 Nat (Except.error "boom") (fun _ => "ok") "boom" rfl

/-- C2: no exception crosses the tool boundary. At the exception-transport
level both the guarded `create_cube_tool` pipeline and the internally
guarded `get_scene_filepath` always produce `.ok` of the total function's
result, for every host behavior and every input; and the three exceptional
behaviors (capability absent, host raising during the mutation, validation
failure) each surface as the corresponding result string. -/
theorem claim_C2_no_exception_escapes :
    (∀ (h : Host) (s : Scene) (name : String) (size : ℚ) (location : V3),
      create_cube_tool_exc h s name size location =
        .ok (create_cube_tool h s name size location)) ∧
    (∀ (h : Host) (s : Scene),
      get_scene_filepath_exc h s = .ok (get_scene_filepath h s)) ∧
    (∀ (h : Host) (s : Scene) (inp : CreateCubeInput),
      h.bpyAvailable = false → create_cube h s inp = (bpyNotFoundMsg, s)) ∧
    (∀ (h : Host) (s : Scene) (inp : CreateCubeInput) (m : String) (s1 : Scene),
      h.bpyAvailable = true →
      h.primitive_cube_add inp.size inp.location s = .error (m, s1) →
      create_cube h s inp = ("Error [Create Cube]: " ++ m, s1)) ∧
    (∀ (h : Host) (s : Scene) (name : String) (size : ℚ) (location : V3) (msg : String),
      validateCreateCube name size location = .error msg →
      create_cube_tool h s name size location = ("Error: " ++ msg, s, 0)) := by
  refine ⟨?_, ?_, ?_, ?_, ?_⟩
  · intro h s name size location
    cases hv : validateCreateCube name size location <;>
      simp [create_cube_tool_exc, create_cube_tool, create_cube_tool_body, tryCatchE, hv,
        pyExnMsg]
  · intro h s
    cases hb : h.bpyAvailable <;>
      simp [get_scene_filepath_exc, get_scene_filepath, get_scene_filepath_body, tryCatchE,
        pyCatch, opExcept, hb]
    split <;> rfl
  · intro h s inp hb
    simp [create_cube, create_cube_body, pyCatch, opExcept, hb]
  · intro h s inp m s1 hb hp
    simp [create_cube, create_cube_body, pyCatch, opExcept, hb, hp]
  · intro h s name size location msg hv
    simp [create_cube_tool, hv]

theorem claim_C2_witness :
    create_cube hostNoBpy sceneEmpty ⟨"ok", 2, (0, 0, 0)⟩ = (bpyNotFoundMsg, sceneEmpty) :=
  claim_C2_no_exception_escapes.2.2.1 hostNoBpy sceneEmpty ⟨"ok", 2, (0, 0, 0)⟩ rfl

/-- C5: every embedded handler that references a named entity or material
short-circuits on a missing name with exactly
`"Error: <Kind> '<name>' not found"` and leaves the scene unmutated; in
particular `move_object` on a scene without `"Ghost"` returns exactly
`"Error: Object 'Ghost' not found"`. -/
theorem claim_C5_missing_entity_short_circuits :
    (∀ (h : Host) (s : Scene), h.bpyAvailable = true →
      (∀ inp : MoveObjectInput, objGet s inp.name = none →
        move_object h s inp = ("Error: Object '" ++ inp.name ++ "' not found", s)) ∧
      (∀ inp : DeleteObjectInput, objGet s inp.name = none →
        delete_object h s inp = ("Error: Object '" ++ inp.name ++ "' not found", s)) ∧
      (∀ inp : RotateObjectInput, objGet s inp.name = none →
        rotate_object h s inp = ("Error: Object '" ++ inp.name ++ "' not found", s)) ∧
      (∀ inp : ScaleObjectInput, objGet s inp.name = none →
        scale_object h s inp = ("Error: Object '" ++ inp.name ++ "' not found", s)) ∧
      (∀ inp : AssignMaterialInput, objGet s inp.object_name = none →
        assign_material h s inp = ("Error: Object '" ++ inp.object_name ++ "' not found", s)) ∧
      (∀ (inp : AssignMaterialInput) (o : SceneObject), objGet s inp.object_name = some o →
        s.materials.contains inp.material_name = false →
        assign_material h s inp = ("Error: Material '" ++ inp.material_name ++ "' not found", s)) ∧
      (∀ inp : SetActiveCameraInput, objGet s inp.camera_name = none →
        set_active_camera h s inp = ("Error: Camera '" ++ inp.camera_name ++ "' not found", s))) ∧
    move_object hostAllOk sceneEmpty ⟨"Ghost", (1, 2, 3)⟩ =
      ("Error: Object 'Ghost' not found", sceneEmpty) := by
  constructor
  · intro h s hb
    refine ⟨?_, ?_, ?_, ?_, ?_, ?_, ?_⟩
    · intro inp hn
      simp [move_object, move_object_body, pyCatch, hb, hn]
    · intro inp hn
      simp [delete_object, delete_object_body, pyCatch, hb, hn]
    · intro inp hn
      simp [rotate_object, rotate_object_body, pyCatch, hb, hn]
    · intro inp hn
      simp [scale_object, scale_object_body, pyCatch, hb, hn]
    · intro inp hn
      simp [assign_material, assign_material_body, pyCatch, hb, hn]
    · intro inp o ho hm
      have hm2 : inp.material_name ∉ s.materials := by simpa using hm
      simp [assign_material, assign_material_body, pyCatch, hb, ho, hm2]
    · intro inp hn
      simp [set_active_camera, set_active_camera_body, pyCatch, hb, hn]
  · rfl

theorem claim_C5_witness :
    move_object hostAllOk sceneEmpty ⟨"Ghost", (1, 2, 3)⟩ =
      ("Error: Object 'Ghost' not found", sceneEmpty) :=
  (claim_C5_missing_entity_short_circuits.1 hostAllOk sceneEmpty rfl).1
    ⟨"Ghost", (1, 2, 3)⟩ rfl

theorem validateEntityName_ok_iff (s : String) :
    exOk (validateEntityName s) = true ↔
      (1 ≤ s.length ∧ s.length ≤ 63 ∧ containsInvalidChar s = false) := by
  unfold validateEntityName checkLen1to63
  split_ifs with h1 h2 h3 <;> simp_all <;> omega

theorem validateEntityName_ok_val (s nm : String) :
    validateEntityName s = .ok nm → nm = pyStripStr s := by
  unfold validateEntityName checkLen1to63
  split_ifs <;> intro h <;> cases h <;> rfl

theorem validateLenOnlyName_ok_iff (s : String) :
    exOk (validateLenOnlyName s) = true ↔ (1 ≤ s.length ∧ s.length ≤ 63) := by
  unfold validateLenOnlyName checkLen1to63
  split_ifs <;> simp_all <;> omega

theorem validateLenOnlyName_ok_val (s nm : String) :
    validateLenOnlyName s = .ok nm → nm = s := by
  unfold validateLenOnlyName checkLen1to63
  split_ifs <;> intro h <;> cases h <;> rfl

theorem validateCreateCube_reduce (s : String) :
    validateCreateCube s 2 (0, 0, 0) =
      (match validateEntityName s with
       | .error e => .error e
       | .ok nm => .ok ⟨nm, 2, (0, 0, 0)⟩) := by
  cases hv : validateEntityName s <;> simp only [validateCreateCube, hv] <;> rfl

theorem validateCreateCube_size_reduce (v : ℚ) :
    validateCreateCube "ok" v (0, 0, 0) =
      (if ¬ (mkRat 1 1000 < v) then .error "Input should be greater than 0.001"
       else if ¬ (v ≤ (1000 : ℚ)) then .error "Input should be less than or equal to 1000"
       else .ok ⟨"ok", v, (0, 0, 0)⟩) := rfl

theorem validateCreateCylinder_radius_reduce (v : ℚ) :
    validateCreateCylinder "ok" v 2 (0, 0, 0) 32 =
      (if ¬ (mkRat 1 1000 < v) then .error "Input should be greater than 0.001"
       else if ¬ (v ≤ (1000 : ℚ)) then .error "Input should be less than or equal to 1000"
       else .ok ⟨"ok", v, 2, (0, 0, 0), 32⟩) := rfl

theorem validateCreateCylinder_depth_reduce (v : ℚ) :
    validateCreateCylinder "ok" 1 v (0, 0, 0) 32 =
      (if ¬ (mkRat 1 1000 < v) then .error "Input should be greater than 0.001"
       else if ¬ (v ≤ (1000 : ℚ)) then .error "Input should be less than or equal to 1000"
       else .ok ⟨"ok", 1, v, (0, 0, 0), 32⟩) := rfl

theorem validateCreatePlane_size_reduce (v : ℚ) :
    validateCreatePlane "ok" v (0, 0, 0) =
      (if ¬ (mkRat 1 1000 < v) then .error "Input should be greater than 0.001"
       else if ¬ (v ≤ (1000 : ℚ)) then .error "Input should be less than or equal to 1000"
       else .ok ⟨"ok", v, (0, 0, 0)⟩) := rfl

theorem validateCreateSphere_radius_reduce (v : ℚ) :
    validateCreateSphere "ok" 32 16 v true false "WORLD" (0, 0, 0) (0, 0, 0) (1, 1, 1) =
      (if ¬ ((0 : ℚ) ≤ v) then .error "Input should be greater than or equal to 0"
       else if ¬ (v ≤ (1000 : ℚ)) then .error "Input should be less than or equal to 1000"
       else .ok ⟨"ok", 32, 16, v, true, false, "WORLD", (0, 0, 0), (0, 0, 0), (1, 1, 1)⟩) := rfl

/-- C7 counterexample: the claim requires every radius field to reject
`0.0`, but `CreateSphereInput.radius` is declared `ge=0.0` and validation
accepts a sphere of radius `0.0` (`0.001 < 0` is false, so the claimed
bound does not hold of it). -/
theorem claim_C7_counterexample :
    exOk (validateCreateSphere "Ball" 32 16 0 true false "WORLD" (0, 0, 0) (0, 0, 0) (1, 1, 1))
        = true ∧
    ¬ (mkRat 1 1000 < (0 : ℚ)) := by
  constructor <;> decide

/-- C7 amended: cube `size`, cylinder `radius` and `depth`, and plane
`size` accept exactly `0.001 < v ≤ 1000.0`; sphere `radius` accepts
exactly `0.0 ≤ v ≤ 1000.0` (so `0.0` is accepted there). -/
theorem claim_C7_amended_float_bounds :
    (∀ v : ℚ, exOk (validateCreateCube "ok" v (0, 0, 0)) = true ↔
      (mkRat 1 1000 < v ∧ v ≤ 1000)) ∧
    (∀ v : ℚ, exOk (validateCreateCylinder "ok" v 2 (0, 0, 0) 32) = true ↔
      (mkRat 1 1000 < v ∧ v ≤ 1000)) ∧
    (∀ v : ℚ, exOk (validateCreateCylinder "ok" 1 v (0, 0, 0) 32) = true ↔
      (mkRat 1 1000 < v ∧ v ≤ 1000)) ∧
    (∀ v : ℚ, exOk (validateCreatePlane "ok" v (0, 0, 0)) = true ↔
      (mkRat 1 1000 < v ∧ v ≤ 1000)) ∧
    (∀ v : ℚ,
      exOk (validateCreateSphere "ok" 32 16 v true false "WORLD" (0, 0, 0) (0, 0, 0) (1, 1, 1))
        = true ↔ (0 ≤ v ∧ v ≤ 1000)) := by
  refine ⟨?_, ?_, ?_, ?_, ?_⟩ <;> intro v
  · rw [validateCreateCube_size_reduce]
    split_ifs with h1 h2 <;> simp_all
  · rw [validateCreateCylinder_radius_reduce]
    split_ifs with h1 h2 <;> simp_all
  · rw [validateCreateCylinder_depth_reduce]
    split_ifs with h1 h2 <;> simp_all
  · rw [validateCreatePlane_size_reduce]
    split_ifs with h1 h2 <;> simp_all
  · rw [validateCreateSphere_radius_reduce]
    split_ifs with h1 h2 <;> simp_all

theorem claim_C7_amended_witness :
    exOk (validateCreateCube "ok" 2 (0, 0, 0)) = true ∧
    mkRat 1 1000 < (2 : ℚ) ∧ (2 : ℚ) ≤ 1000 := by
  have h := (claim_C7_amended_float_bounds.1 2).mpr ⟨by decide, by decide⟩
  exact ⟨h, by decide, by decide⟩

theorem validateRotateObject_reduce (r : V3) :
    validateRotateObject "ok" r =
      (if v3Within rotationLimit r then .ok ⟨"ok", r⟩
       else .error
         "Rotation values should be within ±6.28318 radians (approximately ±360 degrees)") := rfl

theorem validateCreateSphere_rotation_reduce (r : V3) :
    validateCreateSphere "ok" 32 16 1 true false "WORLD" (0, 0, 0) r (1, 1, 1) =
      (match checkVector3 r with
       | .error e => .error e
       | .ok rot =>
         .ok ⟨"ok", 32, 16, 1, true, false, "WORLD", (0, 0, 0), rot, (1, 1, 1)⟩) := rfl

theorem validateCreateCamera_rotation_reduce (r : V3) :
    validateCreateCamera "ok" (0, 0, 0) r = .ok ⟨"ok", (0, 0, 0), r⟩ := rfl

/-- C8 counterexample: the claim requires every rotation 3-tuple field to
reject any component outside `±6.28318`, but validation accepts a sphere
rotation of `(7, 0, 0)` and a camera rotation of `(5000, 0, 0)`, although
`7 ≤ 6.28318` is false. -/
theorem claim_C8_counterexample :
    exOk (validateCreateSphere "Ball" 32 16 1 true false "WORLD" (0, 0, 0) (7, 0, 0) (1, 1, 1))
        = true ∧
    exOk (validateCreateCamera "Cam" (0, 0, 0) (5000, 0, 0)) = true ∧
    ¬ ((7 : ℚ) ≤ rotationLimit) := by
  refine ⟨by decide, by decide, by decide⟩

/-- C8 amended: only `rotate_object`'s rotation is checked against
`±6.28318`; `create_sphere`'s rotation is checked against `±10000.0` (the
validator it shares with `location`); `create_camera`'s rotation is not
validated at all. -/
theorem claim_C8_amended_rotation_bounds :
    (∀ r : V3, exOk (validateRotateObject "ok" r) = true ↔
      v3Within rotationLimit r = true) ∧
    (∀ r : V3,
      exOk (validateCreateSphere "ok" 32 16 1 true false "WORLD" (0, 0, 0) r (1, 1, 1)) = true ↔
      v3Within 10000 r = true) ∧
    (∀ r : V3, exOk (validateCreateCamera "ok" (0, 0, 0) r) = true) := by
  refine ⟨?_, ?_, ?_⟩ <;> intro r
  · rw [validateRotateObject_reduce]
    cases hb : v3Within rotationLimit r <;> simp [hb]
  · rw [validateCreateSphere_rotation_reduce]
    unfold checkVector3
    cases hb : v3Within 10000 r <;> simp [hb]
  · rw [validateCreateCamera_rotation_reduce]
    rfl

theorem claim_C8_amended_witness :
    exOk (validateRotateObject "ok" (1, 1, 1)) = true ∧ v3Within rotationLimit (1, 1, 1) = true := by
  have h := (claim_C8_amended_rotation_bounds.1 (1, 1, 1)).mpr (by decide)
  exact ⟨h, by decide⟩

theorem validateMoveObject_name_reduce (s : String) :
    validateMoveObject s (0, 0, 0) =
      (match validateLenOnlyName s with
       | .error e => .error e
       | .ok nm => .ok ⟨nm, (0, 0, 0)⟩) := by
  cases hv : validateLenOnlyName s <;> simp only [validateMoveObject, hv] <;> rfl

theorem validateCreateMaterial_name_reduce (s : String) :
    validateCreateMaterial s (mkRat 4 5, mkRat 4 5, mkRat 4 5) =
      (match validateLenOnlyName s with
       | .error e => .error e
       | .ok nm => .ok ⟨nm, (mkRat 4 5, mkRat 4 5, mkRat 4 5)⟩) := by
  cases hv : validateLenOnlyName s <;> simp only [validateCreateMaterial, hv] <;> rfl

/-- C9 counterexample: the claim requires every entity/material name field
to reject the forbidden characters, but `MoveObjectInput.name` has no
character validator and `move` accepts the name `"a/b"` although it
contains `/`. -/
theorem claim_C9_counterexample :
    exOk (validateMoveObject "a/b" (0, 0, 0)) = true ∧
    containsInvalidChar "a/b" = true := by
  constructor <;> decide

/-- C9 amended: the `[1,63]` length bound applies to every name field, but
the forbidden-character check and the acceptance-time trim apply only to
the creation-tool name fields (and `duplicate`'s `new_name`); the name
fields of move/delete/select/rotate/scale/get-info, the material name, the
two assign-material names, `duplicate`'s source name and
`set_active_camera`'s name accept any string of length 1-63 unchanged. -/
theorem claim_C9_amended_name_fields :
    (∀ s : String, exOk (validateCreateCube s 2 (0, 0, 0)) = true ↔
      (1 ≤ s.length ∧ s.length ≤ 63 ∧ containsInvalidChar s = false)) ∧
    (∀ (s : String) (m : CreateCubeInput),
      validateCreateCube s 2 (0, 0, 0) = .ok m → m.name = pyStripStr s) ∧
    (∀ s : String, exOk (validateMoveObject s (0, 0, 0)) = true ↔
      (1 ≤ s.length ∧ s.length ≤ 63)) ∧
    (∀ (s : String) (m : MoveObjectInput),
      validateMoveObject s (0, 0, 0) = .ok m → m.name = s) ∧
    (∀ s : String,
      exOk (validateCreateMaterial s (mkRat 4 5, mkRat 4 5, mkRat 4 5)) = true ↔
      (1 ≤ s.length ∧ s.length ≤ 63)) := by
  refine ⟨?_, ?_, ?_, ?_, ?_⟩
  · intro s
    rw [validateCreateCube_reduce]
    have h2 := validateEntityName_ok_iff s
    cases hv : validateEntityName s <;> rw [hv] at h2 <;> simpa using h2
  · intro s m
    rw [validateCreateCube_reduce]
    cases hv : validateEntityName s with
    | error e => intro h; simp at h
    | ok nm =>
      intro h
      injection h with h3
      rw [← h3]
      exact validateEntityName_ok_val s nm hv
  · intro s
    rw [validateMoveObject_name_reduce]
    have h2 := validateLenOnlyName_ok_iff s
    cases hv : validateLenOnlyName s <;> rw [hv] at h2 <;> simpa using h2
  · intro s m
    rw [validateMoveObject_name_reduce]
    cases hv : validateLenOnlyName s with
    | error e => intro h; simp at h
    | ok nm =>
      intro h
      injection h with h3
      rw [← h3]
      exact validateLenOnlyName_ok_val s nm hv
  · intro s
    rw [validateCreateMaterial_name_reduce]
    have h2 := validateLenOnlyName_ok_iff s
    cases hv : validateLenOnlyName s <;> rw [hv] at h2 <;> simpa using h2

theorem claim_C9_amended_witness :
    exOk (validateMoveObject " x " (0, 0, 0)) = true ∧
    validateMoveObject " x " (0, 0, 0) = .ok ⟨" x ", (0, 0, 0)⟩ := by
  have h := (claim_C9_amended_name_fields.2.2.1 " x ").mpr ⟨by decide, by decide⟩
  exact ⟨h, by decide⟩

theorem pyStrip_all_space (l : List Char) (h : l.all isPySpace = true) :
    pyStrip l = [] := by
  have h1 : l.dropWhile isPySpace = [] := by
    rw [List.dropWhile_eq_nil_iff]
    intro x hx
    exact List.all_eq_true.mp h x hx
  unfold pyStrip
  rw [h1]
  rfl

theorem contains_false_of_all_space (l : List Char) (h : l.all isPySpace = true)
    (c : Char) (hc : isPySpace c = false) : l.contains c = false := by
  by_contra hcon
  have hmem : c ∈ l := by
    have : l.contains c = true := by
      cases hval : l.contains c
      · exact absurd hval hcon
      · rfl
    simpa using this
  have := List.all_eq_true.mp h c hmem
  rw [hc] at this
  exact Bool.false_ne_true this

theorem allspace_no_invalid (s : String) (h : s.data.all isPySpace = true) :
    containsInvalidChar s = false := by
  unfold containsInvalidChar
  rw [List.any_eq_false]
  intro c hc
  have hcs : isPySpace c = false := by fin_cases hc <;> decide
  intro hcon
  rw [contains_false_of_all_space s.data h c hcs] at hcon
  exact Bool.false_ne_true hcon

theorem validateEntityName_all_space (s : String) (hne : s.data ≠ [])
    (hlen : s.data.length ≤ 63) (hsp : s.data.all isPySpace = true) :
    validateEntityName s = .ok "" := by
  unfold validateEntityName checkLen1to63
  have hpos : 0 < s.data.length := List.length_pos.mpr hne
  have h1 : ¬ (s.length < 1) := by
    show ¬ (s.data.length < 1)
    omega
  have h2 : ¬ (63 < s.length) := by
    show ¬ (63 < s.data.length)
    omega
  rw [if_neg h1, if_neg h2]
  have h3 := allspace_no_invalid s hsp
  have h4 : pyStripStr s = "" := by
    unfold pyStripStr
    rw [pyStrip_all_space s.data hsp]
  simp [h3, h4]

/-- C10: a name consisting solely of 1 to 63 whitespace characters passes
validation (the length bounds are checked before the validator trims, and
whitespace is not a forbidden character), and the accepted canonical name
is the empty string — so a cube can be created whose effective name is
empty. -/
theorem claim_C10_whitespace_name_accepted_as_empty :
    ∀ s : String, s.data ≠ [] → s.data.length ≤ 63 → s.data.all isPySpace = true →
      validateCreateCube s 2 (0, 0, 0) = .ok ⟨"", 2, (0, 0, 0)⟩ := by
  intro s hne hlen hsp
  rw [validateCreateCube_reduce, validateEntityName_all_space s hne hlen hsp]

theorem claim_C10_witness :
    validateCreateCube "   " 2 (0, 0, 0) = .ok ⟨"", 2, (0, 0, 0)⟩ :=
  claim_C10_whitespace_name_accepted_as_empty "   " (by decide) (by decide) (by decide)

/-- A chunk containing neither `'\x7b'` nor `'['` — pure non-JSON noise. -/
def noJsonStart (l : List Char) : Bool :=
  l.all (fun c => !(c = '\x7b' || c = '['))

theorem findJsonStart_eq_none (l : List Char) (h : noJsonStart l = true) :
    findJsonStart l = none := by
  unfold findJsonStart
  have h1 : l.findIdx? (fun c => c = '\x7b') = none := by
    rw [List.findIdx?_eq_none_iff]
    intro x hx
    have hx2 := List.all_eq_true.mp h x hx
    simp at hx2 ⊢
    exact hx2.1
  rw [h1, List.findIdx?_eq_none_iff]
  intro x hx
  have hx2 := List.all_eq_true.mp h x hx
  simp at hx2 ⊢
  exact hx2.2

theorem extract_noStart (n : Nat) (buf : List Char) (h : noJsonStart buf = true) :
    extractFuel (n + 1) buf = ([], if 1000 < buf.length then [] else buf) := by
  cases buf with
  | nil => simp [extractFuel]
  | cons c cs =>
    simp only [extractFuel, findJsonStart_eq_none _ h]
    split <;> rfl

theorem filterStep_noise (buf chunk : List Char) (hb : noJsonStart buf = true)
    (hc : noJsonStart chunk = true) :
    (filterStep buf chunk).1 = [] ∧ noJsonStart (filterStep buf chunk).2 = true ∧
      (filterStep buf chunk).2.length ≤ 1000 := by
  have hbc : noJsonStart (buf ++ chunk) = true := by
    unfold noJsonStart at hb hc ⊢
    rw [List.all_append, hb, hc]
    rfl
  have hstep : filterStep buf chunk =
      ([], if 1000 < (buf ++ chunk).length then [] else buf ++ chunk) := by
    simp only [filterStep, extractJson,
      extract_noStart ((buf ++ chunk).length) (buf ++ chunk) hbc]
    by_cases hlen : 1000 < (buf ++ chunk).length
    · simp only [if_pos hlen]
      simp
    · simp only [if_neg hlen]
      have h2 : ¬ (100000 < (buf ++ chunk).length) := by omega
      show ([], if 100000 < (buf ++ chunk).length then [] else buf ++ chunk) =
        (([] : List (List Char)), buf ++ chunk)
      rw [if_neg h2]
  rw [hstep]
  by_cases hlen : 1000 < (buf ++ chunk).length
  · rw [if_pos hlen]
    exact ⟨rfl, rfl, by norm_num⟩
  · rw [if_neg hlen]
    refine ⟨rfl, hbc, ?_⟩
    show (buf ++ chunk).length ≤ 1000
    omega

theorem filterRun_noise (chunks : List (List Char)) : ∀ buf : List Char,
    noJsonStart buf = true → buf.length ≤ 1000 →
    (∀ c ∈ chunks, noJsonStart c = true) →
    (filterRun buf chunks).1 = [] ∧ noJsonStart (filterRun buf chunks).2 = true ∧
      (filterRun buf chunks).2.length ≤ 1000 := by
  induction chunks with
  | nil =>
    intro buf hb hl _
    exact ⟨rfl, hb, hl⟩
  | cons c cs ih =>
    intro buf hb hl hc
    have hcc : noJsonStart c = true := hc c (by simp)
    have hcs : ∀ x ∈ cs, noJsonStart x = true := fun x hx => hc x (by simp [hx])
    obtain ⟨h1, h2, h3⟩ := filterStep_noise buf c hb hcc
    obtain ⟨g1, g2, g3⟩ := ih (filterStep buf c).2 h2 h3 hcs
    exact ⟨by simp [filterRun, h1, g1], g2, g3⟩

def part1Chunk : List Char := "\x7b\"jsonrpc\":\"2.0\",\"id\":1,\"re".data

def part2Chunk : List Char := "sult\":42\x7d\n".data

/-- C3: the three §8 demultiplexer scenarios. (1) On the banner input the
filter emits exactly the JSON frame followed by a newline and nothing
else; (2) a JSON object split across two reads is withheld after the
first read and emitted after the read that completes it; (3) on any amount
of noise with no `'\x7b'`/`'['`, nothing is ever emitted and the buffer is
cleared whenever it grows past 1000 characters, so it stays bounded. -/
theorem claim_C3_demultiplexer_scenarios :
    filterRun [] [bannerChunk] = ([jsonFrame ++ ['\n']], "more junk\n".data) ∧
    (filterStep [] part1Chunk = ([], part1Chunk) ∧
      filterRun [] [part1Chunk, part2Chunk] = ([jsonFrame ++ ['\n']], [])) ∧
    (∀ chunks : List (List Char), (∀ c ∈ chunks, noJsonStart c = true) →
      (filterRun [] chunks).1 = [] ∧ (filterRun [] chunks).2.length ≤ 1000) := by
  refine ⟨by decide, ⟨by decide, by decide⟩, ?_⟩
  intro chunks hc
  have h := filterRun_noise chunks [] rfl (by simp) hc
  exact ⟨h.1, h.2.2⟩

theorem claim_C3_witness :
    (filterRun [] [List.replicate 1500 'n']).1 = [] ∧
      (filterRun [] [List.replicate 1500 'n']).2.length ≤ 1000 :=
  claim_C3_demultiplexer_scenarios.2.2 [List.replicate 1500 'n'] (by decide)

theorem tryWhole_emit (buf u : List Char) (h : u ∈ (tryWholeBuffer buf).1) :
    (startsJson u && jsonValid u) = true ∧ u = pyStrip buf := by
  unfold tryWholeBuffer at h
  by_cases hg : (startsJson (pyStrip buf) && jsonValid (pyStrip buf)) = true
  · rw [if_pos hg] at h
    simp at h
    subst h
    exact ⟨hg, rfl⟩
  · rw [if_neg hg] at h
    simp at h

theorem extract_emit (fuel : Nat) : ∀ buf u : List Char,
    u ∈ (extractFuel fuel buf).1 →
    ∃ j, (startsJson j && jsonValid j) = true ∧ (u = j ++ ['\n'] ∨ u = j) := by
  induction fuel with
  | zero =>
    intro buf u hu
    cases buf <;> simp [extractFuel] at hu
  | succ n ih =>
    intro buf u hu
    cases buf with
    | nil => simp [extractFuel] at hu
    | cons c cs =>
      simp only [extractFuel] at hu
      cases hf : findJsonStart (c :: cs) with
      | none =>
        rw [hf] at hu
        by_cases hlen : 1000 < (c :: cs).length
        · rw [if_pos hlen] at hu
          simp at hu
        · rw [if_neg hlen] at hu
          simp at hu
      | some i =>
        rw [hf] at hu
        simp only at hu
        cases hnl : ((c :: cs).drop i).findIdx? (fun ch => ch = '\n') with
        | none =>
          rw [hnl] at hu
          have h2 := tryWhole_emit _ u hu
          exact ⟨u, h2.1, Or.inr rfl⟩
        | some nl =>
          rw [hnl] at hu
          simp only at hu
          by_cases hg : (startsJson (pyStrip (((c :: cs).drop i).take nl)) &&
              jsonValid (pyStrip (((c :: cs).drop i).take nl))) = true
          · rw [if_pos hg] at hu
            rcases List.mem_cons.mp hu with h1 | h2
            · exact ⟨pyStrip (((c :: cs).drop i).take nl), hg, Or.inl h1⟩
            · exact ih _ u h2
          · rw [if_neg hg] at hu
            have h2 := tryWhole_emit _ u hu
            exact ⟨u, h2.1, Or.inr rfl⟩

theorem filterRun_emit (chunks : List (List Char)) : ∀ buf u : List Char,
    u ∈ (filterRun buf chunks).1 →
    ∃ j, (startsJson j && jsonValid j) = true ∧ (u = j ++ ['\n'] ∨ u = j) := by
  induction chunks with
  | nil =>
    intro buf u hu
    simp [filterRun] at hu
  | cons c cs ih =>
    intro buf u hu
    simp only [filterRun] at hu
    rcases List.mem_append.mp hu with h1 | h2
    · exact extract_emit _ _ u h1
    · exact ih _ u h2

theorem finalFlush_emit (b u : List Char) (h : u ∈ finalFlush b) :
    (startsJson (pyStrip u) && jsonValid (pyStrip u)) = true := by
  unfold finalFlush at h
  by_cases he : b.isEmpty = true
  · rw [if_pos he] at h
    simp at h
  · rw [if_neg he] at h
    by_cases hg : (startsJson (pyStrip b) && jsonValid (pyStrip b)) = true
    · rw [if_pos hg] at h
      simp at h
      subst h
      exact hg
    · rw [if_neg hg] at h
      simp at h

/-- C4: every unit the filter ever writes is a complete JSON text: it is
`j ++ "\n"` or `j` for some `j` that starts with `'\x7b'`/`'['` and parses
as one JSON value (the end-of-process flush writes the raw residual buffer
whose strip is such a `j`). Banner text, log lines, and partial frames are
never written, in any reachable state. -/
theorem claim_C4_output_units_are_json :
    ∀ (buf : List Char) (chunks : List (List Char)) (u : List Char),
      u ∈ filterRunFinal buf chunks →
      ∃ j, (startsJson j && jsonValid j) = true ∧
        (u = j ++ ['\n'] ∨ u = j ∨ pyStrip u = j) := by
  intro buf chunks u hu
  unfold filterRunFinal at hu
  rcases List.mem_append.mp hu with h1 | h2
  · obtain ⟨j, hj, hd⟩ := filterRun_emit chunks buf u h1
    exact ⟨j, hj, by tauto⟩
  · exact ⟨pyStrip u, finalFlush_emit _ u h2, Or.inr (Or.inr rfl)⟩

theorem claim_C4_witness :
    ∃ j, (startsJson j && jsonValid j) = true ∧
      (jsonFrame ++ ['\n'] = j ++ ['\n'] ∨ jsonFrame ++ ['\n'] = j ∨
        pyStrip (jsonFrame ++ ['\n']) = j) :=
  claim_C4_output_units_are_json [] [bannerChunk] (jsonFrame ++ ['\n']) (by decide)
